import Mathlib

/-!
# Verification of the MConn transport (`p2p/transport_mconn.go`)

A shallow embedding of the peer-connection establishment and multiplexing
adapter: the transport accept/dial paths, the connection-filter step, the
handshake constructor `newMConnConnection`, and the per-channel stream
(`mConnStream`).  Effectful Go code is embedded as pure functions over an
explicit environment recording the outcomes of the external operations
(socket I/O, key exchange, filter completions), returning results and, for
the transport workers, a trace of the actions they perform.

Machine bytes are modelled as `Nat` (with explicit `% 256` / `% 65536`
truncation where Go converts), byte slices as `List Nat`, Go errors as
`Option String` or dedicated result inductives.
-/

/-- The classification flags and payload of the Go `ErrRejected` error
(`p2p/errors.go`); only the fields `transport_mconn.go` sets are modelled. -/
structure ErrRejected where
  isDuplicate : Bool := false
  isFiltered : Bool := false
  isSelf : Bool := false
  isIncompatible : Bool := false
  isNodeInfoInvalid : Bool := false
  isAuthFailure : Bool := false
  id : String := ""
  msg : String := ""
deriving DecidableEq, Repr

/-- Errors surfaced by the transport paths: a classified rejection, the
filter timeout, or a plain I/O/parse error. -/
inductive TransportError
  | rejected (e : ErrRejected)
  | filterTimeout
  | ioFailure (msg : String)
deriving DecidableEq, Repr

/-! ## Connection filtering (`mConnTransport.filterTCPConn`)

Each configured `ConnFilterFunc` runs in its own goroutine and writes its
result into the buffered channel `chErr`.  A filter completion is modelled
as a pair `(t, r)`: the time `t` at which its result becomes available on
the channel and the result `r` (`none` = success, `some msg` = rejection).
The list `deliveries` holds the completions in channel-delivery order
(ascending `t`); filters that never complete do not appear in it, but still
count towards `cap(chErr) = numFilters`. -/

/-- Result of the filter step. -/
inductive FilterResult
  | success
  | rejectedDuplicate
  | rejectedFiltered (msg : String)
  | addrFailure
  | filterTimeout
deriving DecidableEq, Repr

/-- The receive loop of `filterTCPConn` (lines 292–302).  `remaining` is the
number of results still to collect (`cap(chErr) - i`), `now` the current
time.  Each iteration of the Go loop evaluates `time.After(m.filterTimeout)`
afresh, so each wait races the next channel delivery against a new timer
armed at `now`: the next delivery at time `t` wins iff `t < now + ft`. -/
def filterLoop (ft : Nat) : Nat → Nat → List (Nat × Option String) → FilterResult
  | 0, _, _ => .success
  | _ + 1, _, [] => .filterTimeout
  | remaining + 1, now, (t, r) :: rest =>
    if t < now + ft then
      match r with
      | some msg => .rejectedFiltered msg
      | none => filterLoop ft remaining (max now t) rest
    else .filterTimeout

/-- `mConnTransport.filterTCPConn` (lines 269–309): reject a socket already
in the `ConnSet` as a duplicate, fail on an unparseable remote address, then
collect all filter results.  (On `.success` the caller-visible side effect
is `m.conns.Set`, registering the socket's IPs.) -/
def mConnTransport.filterTCPConn (ft : Nat) (alreadyInConnSet : Bool)
    (addrParses : Bool) (numFilters : Nat)
    (deliveries : List (Nat × Option String)) : FilterResult :=
  if alreadyInConnSet then .rejectedDuplicate
  else if !addrParses then .addrFailure
  else filterLoop ft numFilters 0 deliveries

/-- Whether consecutive channel deliveries each arrive within `ft` of the
previous receive (the per-wait timer of `filterLoop` never fires). -/
def withinWaits (ft : Nat) : Nat → List (Nat × Option String) → Bool
  | _, [] => true
  | now, (t, _) :: rest => decide (t < now + ft) && withinWaits ft (max now t) rest

/-! ## The accept-loop worker and the dial path

The goroutine spawned per accepted socket (`mConnTransport.accept`, lines
174–198) and the body of `mConnTransport.Dial` after the TCP connect
succeeds (lines 231–242) are embedded as trace-producing functions: the
exact sequence of externally visible actions each performs, as a function
of whether the filter step and the handshake fail.  The sends on `chError`
and `chAccept` race the transport's close channel; `reportError` /
`deliverConn` denote offering the value on the respective channel. -/

/-- Actions of the per-socket accept-loop worker. -/
inductive AcceptEvent
  | closeSocket
  | reportError
  | invokeHandshake
  | removeFromConnSet
  | deliverConn
  | closeConn
deriving DecidableEq, Repr

/-- The accept-loop worker body (lines 174–198).  Note that the Go code's
`if err != nil` block after `filterTCPConn` closes the socket and offers the
error, but does not return: control continues into `newMConnConnection`
unconditionally. -/
def acceptWorker (filterErr : Option TransportError) (handshakeFails : Bool)
    (transportClosed : Bool) : List AcceptEvent :=
  (match filterErr with
   | some _ => [.closeSocket, .reportError]
   | none => []) ++
  [.invokeHandshake] ++
  (if handshakeFails then [.removeFromConnSet, .closeSocket, .reportError]
   else if transportClosed then [.closeConn]
   else [.deliverConn])

/-- Actions of `mConnTransport.Dial` after the TCP connect succeeds. -/
inductive DialEvent
  | invokeFilter
  | invokeHandshake
  | removeFromConnSet
  | closeSocket
  | returnFailure
  | returnConn
deriving DecidableEq, Repr

/-- The tail of `mConnTransport.Dial` (lines 231–242): filter, then
handshake; on handshake failure the socket is removed from the `ConnSet`
and the error returned. -/
def dialWorker (filterErr : Option TransportError) (handshakeFails : Bool) :
    List DialEvent :=
  [.invokeFilter] ++
  match filterErr with
  | some _ => [.returnFailure]
  | none =>
    [.invokeHandshake] ++
    (if handshakeFails then [.removeFromConnSet, .returnFailure]
     else [.returnConn])

/-! ## Streams (`mConnStream`)

A stream owns the unbuffered hand-off channel `chReceive` and the close
signal `chClose`.  The channel operations are embedded by passing the
relevant channel state explicitly: `closed` is the state of `chClose`, and
for `Read` the parameter `incoming` is the chunk a sender is currently
offering on `chReceive` (`none` = no sender ready). -/

/-- Error results of `mConnStream.Read`: `io.ErrShortBuffer` or `io.EOF`. -/
inductive StreamReadError
  | shortBuffer
  | endOfStream
deriving DecidableEq, Repr

/-- Outcome of a `Read` call: it either completes with a byte count, an
optional error and the resulting target-buffer contents, or it blocks. -/
inductive ReadOutcome
  | done (n : Nat) (err : Option StreamReadError) (target : List Nat)
  | blocked
deriving DecidableEq, Repr

/-- Go's `copy(dst, src)`: copies `min (length src) (length dst)` bytes into
the front of `dst`, leaving the rest of `dst` unchanged. -/
def copyBytes (src dst : List Nat) : List Nat :=
  src.take (min src.length dst.length) ++ dst.drop (min src.length dst.length)

/-- `mConnStream.Read` (lines 636–651): take a chunk from `chReceive` if a
sender is ready — failing with `io.ErrShortBuffer` and copying nothing when
the chunk is larger than the target buffer — or return `io.EOF` once the
stream is closed; otherwise block. -/
def mConnStream.Read (incoming : Option (List Nat)) (closed : Bool)
    (target : List Nat) : ReadOutcome :=
  match incoming with
  | some bz =>
    if target.length < bz.length then .done 0 (some .shortBuffer) target
    else .done bz.length none (copyBytes bz target)
  | none => if closed then .done 0 (some .endOfStream) target else .blocked

/-- The error text used by `mConnStream.receive` when the stream closes. -/
def streamClosedMsg : String := "stream has been closed"

/-- `mConnStream.receive` (lines 611–628): the chunks sent on `chReceive`
(in order) and the returned error.  A non-empty `bz` is sent first; when
`eof` is set a zero-length end-of-message marker follows.  Each send races
`chClose`; `closed` gives that channel's state (held fixed across the
call). -/
def mConnStream.receive (closed : Bool) (bz : List Nat) (eof : Bool) :
    List (List Nat) × Option String :=
  if 0 < bz.length then
    if closed then ([], some streamClosedMsg)
    else if eof then ([bz, []], none)
    else ([bz], none)
  else
    if eof then
      if closed then ([], some streamClosedMsg)
      else ([[]], none)
    else ([], none)

/-- `mConnStream.Write` (lines 658–666): fails if the stream is closed,
fails if the multiplexer send returns false, else reports the whole message
written.  `sendOK` is the result of `mConn.Send`. -/
def mConnStream.Write (closed : Bool) (sendOK : Bool) (bz : List Nat) :
    Nat × Option String :=
  if closed then (0, some "stream is closed")
  else if sendOK then (bz.length, none)
  else (0, some "MConn send failed")

/-- `mConnStream.Close` (lines 669–674): `sync.Once` closes `chClose`, so
the resulting state is closed whatever the prior state, and the returned
error is always `nil`. -/
def mConnStream.Close (_closed : Bool) : Bool × Option String := (true, none)

/-! ## The handshake constructor (`newMConnConnection`)

`newMConnConnection` (lines 350–486) is a sequence of effectful steps with
early returns, wrapped in a deferred `recover` that overwrites the named
return `err` with an authentication-failure rejection whenever a panic is
caught.  Each external step's outcome is a field of `HandshakeEnv`; the
function body (without the recover) is `newMConnConnectionBody`, and the
recover wrapper is `newMConnConnection`. -/

/-- Outcome of one effectful step: normal result, Go error, or panic. -/
inductive Outcome (α : Type)
  | ok (val : α)
  | fail (msg : String)
  | panicked (msg : String)
deriving DecidableEq, Repr

/-- The peer's node-info descriptor; only the identity is consulted by
`transport_mconn.go` (validation and compatibility are collaborator calls,
recorded as outcomes in `HandshakeEnv`). -/
structure NodeInfo where
  nodeID : String
deriving DecidableEq, Repr

/-- Outcomes of the external operations `newMConnConnection` performs, in
program order.  `mConnNewPanic` covers `tmconn.NewMConnectionWithConfig`,
which returns no error but may panic. -/
structure HandshakeEnv where
  /-- `tcpConn.SetDeadline(now + handshakeTimeout)` (line 368). -/
  setDeadlineStart : Outcome Unit
  /-- `tmconn.MakeSecretConnection` (line 382); `ok` carries the remote
  public key. -/
  secretConn : Outcome String
  /-- the bidirectional node-info exchange `conn.handshake()` (line 391). -/
  exchange : Outcome NodeInfo
  /-- `conn.nodeInfo.Validate()` (line 400). -/
  validate : Outcome Unit
  /-- `transport.nodeInfo.CompatibleWith(conn.nodeInfo)` (line 442). -/
  compatible : Outcome Unit
  /-- `tcpConn.SetDeadline(time.Time\x7b\x7d)` clearing the deadline (line 453). -/
  clearDeadline : Outcome Unit
  /-- panic raised inside `tmconn.NewMConnectionWithConfig` (line 475). -/
  mConnNewPanic : Option String
  /-- `conn.mConn.Start()` (line 484). -/
  mConnStart : Outcome Unit
deriving DecidableEq, Repr

/-- Modelled from the spec: `PubKeyToID` (`p2p/key.go`) is not under `src/`;
the spec only speaks of "the identity derived from the secure channel's
public key", treating the derivation as opaque, so it is modelled as the
identity map on abstract keys. -/
def PubKeyToID (pubKey : String) : String := pubKey

/-- The successfully constructed connection: remote public key, validated
peer node info, and the fixed stream map keyed by channel id. -/
structure ConnInfo where
  pubKey : String
  nodeInfo : NodeInfo
  streams : List Nat
deriving DecidableEq, Repr

/-- Result of the handshake function body, before the deferred recover. -/
inductive BodyResult
  | success (c : ConnInfo)
  | failure (e : ErrRejected)
  | plainFailure (msg : String)
  | panicked (msg : String)
deriving DecidableEq, Repr

/-- Result of `newMConnConnection` as seen by its caller. -/
inductive HandshakeResult
  | ok (c : ConnInfo)
  | rejectedErr (e : ErrRejected)
  | plainFailure (msg : String)
deriving DecidableEq, Repr

/-- An `ErrRejected` with `isAuthFailure` set (lines 370–375 et al.). -/
def authRej (msg : String) : ErrRejected :=
  { isAuthFailure := true, msg := msg }

/-- The rejection for a dialed-identity mismatch (lines 417–428). -/
def authMismatchRej (peerID : String) : ErrRejected :=
  { isAuthFailure := true, id := peerID, msg := "conn.ID dialed ID mismatch" }

/-- The self-connection rejection (lines 433–439). -/
def selfRej (nodeID : String) : ErrRejected :=
  { isSelf := true, id := nodeID }

/-- The incompatible-peer rejection (lines 444–449). -/
def incompatRej (nodeID msg : String) : ErrRejected :=
  { isIncompatible := true, id := nodeID, msg := msg }

/-- The invalid-node-info rejection (lines 402–407). -/
def nodeInfoInvalidRej (msg : String) : ErrRejected :=
  { isNodeInfoInvalid := true, msg := msg }

/-- The per-channel stream construction loop (lines 464–474), built on
`newMConnStream` (lines 588–598): fails for a channel id above 255.  (At
this call site the Go `chDesc.ID` is a `byte`, so the failure branch is
unreachable there, but it is kept for fidelity to `newMConnStream`.) -/
def buildStreams : List Nat → Except String (List Nat)
  | [] => .ok []
  | id :: rest =>
    if 255 < id then .error "MConn only supports channel IDs up to 255"
    else
      match buildStreams rest with
      | .ok s => .ok (id :: s)
      | .error e => .error e

/-- The body of `newMConnConnection` (lines 368–485), without the deferred
recover: the handshake steps in program order with their early-return
rejections.  The Go nested conditional `if expectPeerID != "" { if
expectPeerID != peerID { return … } }` is collapsed into the single guard
`expectPeerID ≠ "" ∧ expectPeerID ≠ peerID`.  On `mConn.Start()` failure
the error is returned unwrapped (line 484), hence `plainFailure`. -/
def newMConnConnectionBody (transportNodeID : String) (channelDescs : List Nat)
    (expectPeerID : String) (env : HandshakeEnv) : BodyResult :=
  match env.setDeadlineStart with
  | .panicked m => .panicked m
  | .fail m => .failure (authRej ("secret conn failed: " ++ m))
  | .ok _ =>
    match env.secretConn with
    | .panicked m => .panicked m
    | .fail m => .failure (authRej ("secret conn failed: " ++ m))
    | .ok pubKey =>
      match env.exchange with
      | .panicked m => .panicked m
      | .fail m => .failure (authRej ("handshake failed: " ++ m))
      | .ok ni =>
        match env.validate with
        | .panicked m => .panicked m
        | .fail m => .failure (nodeInfoInvalidRej m)
        | .ok _ =>
          if expectPeerID ≠ "" ∧ expectPeerID ≠ PubKeyToID pubKey then
            .failure (authMismatchRej (PubKeyToID pubKey))
          else if transportNodeID = ni.nodeID then
            .failure (selfRej ni.nodeID)
          else
            match env.compatible with
            | .panicked m => .panicked m
            | .fail m => .failure (incompatRej ni.nodeID m)
            | .ok _ =>
              match env.clearDeadline with
              | .panicked m => .panicked m
              | .fail m => .failure (authRej ("secret conn failed: " ++ m))
              | .ok _ =>
                match buildStreams channelDescs with
                | .error m => .failure (authRej ("mconn failed: " ++ m))
                | .ok streams =>
                  match env.mConnNewPanic with
                  | some m => .panicked m
                  | none =>
                    match env.mConnStart with
                    | .panicked m => .panicked m
                    | .fail m => .plainFailure m
                    | .ok _ =>
                      .success { pubKey := pubKey, nodeInfo := ni,
                                 streams := streams }

/-- `newMConnConnection` (lines 350–486): the body wrapped in the deferred
recover (lines 358–366), which converts any caught panic into an
`ErrRejected` flagged `isAuthFailure` with message
`"recovered from panic: …"`. -/
def newMConnConnection (transportNodeID : String) (channelDescs : List Nat)
    (expectPeerID : String) (env : HandshakeEnv) : HandshakeResult :=
  match newMConnConnectionBody transportNodeID channelDescs expectPeerID env with
  | .success c => .ok c
  | .failure e => .rejectedErr e
  | .plainFailure m => .plainFailure m
  | .panicked m =>
    .rejectedErr { isAuthFailure := true, msg := "recovered from panic: " ++ m }

/-! ## Connection stream lookup and the endpoint normalizer -/

/-- `mConnConnection.Stream` (lines 557–560): `return c.streams[byte(id)],
nil`.  The Go conversion `byte(id)` truncates the `uint16` id to its low 8
bits, and a map lookup of an absent key yields the zero value (`nil`
stream) with no error.  The fixed stream map is represented by the list of
channel ids it was built from; a found stream is identified by its byte
id. -/
def mConnConnection.Stream (streams : List Nat) (id : Nat) :
    Option Nat × Option String :=
  (if (id % 256) ∈ streams then some (id % 256) else none, none)

/-- An endpoint: protocol tag, peer identity, IP, port, optional path. -/
structure Endpoint where
  protocol : String
  peerID : String
  ip : List Nat
  port : Nat
  path : String
deriving DecidableEq, Repr

/-- Modelled from the spec: `Endpoint.Validate` lives in `p2p/transport.go`,
which is not under `src/`.  The spec's endpoint invariant (§3) lists only
conditions that `normalizeEndpoint` itself enforces (protocol, required IP,
empty path, port default) and describes no further validation, so
`Validate` is modelled as accepting every endpoint. -/
def Endpoint.Validate (_e : Endpoint) : Option String := none

/-- The MConn protocol identifier (line 29). -/
def MConnProtocolStr : String := "mconn"

/-- `mConnTransport.normalizeEndpoint` (lines 312–335): validate, default an
empty protocol to `mconn`, then require the `mconn` protocol, a non-empty
IP and an empty path, and default a zero port to 26657.  The Go function
mutates the endpoint through a pointer; the embedding returns the
normalized endpoint. -/
def mConnTransport.normalizeEndpoint (e : Endpoint) : Except String Endpoint :=
  match Endpoint.Validate e with
  | some m => .error m
  | none =>
    let e1 := if e.protocol = "" then { e with protocol := MConnProtocolStr } else e
    if e1.protocol ≠ MConnProtocolStr then .error ("unsupported protocol " ++ e1.protocol)
    else if e1.ip.length = 0 then .error "endpoint must have an IP address"
    else if e1.path ≠ "" then .error "endpoint cannot have path"
    else .ok (if e1.port = 0 then { e1 with port := 26657 } else e1)

/-! ## Theorems -/

/-- Claim C1 — the accept-loop worker, evaluated at a socket whose filter
step returns a rejection (a duplicate) and whose handshake then fails: the
worker closes the socket and offers the filter error, but — because the
`if err != nil` block after `filterTCPConn` lacks a `return` — it still
invokes `newMConnConnection` on the already-closed socket and offers a
second error.  The claim that no handshake is performed after a filter
rejection is therefore violated by the code. -/
theorem accept_filter_rejected_still_handshakes :
    acceptWorker (some (.rejected { isDuplicate := true })) true false =
      [AcceptEvent.closeSocket, .reportError, .invokeHandshake,
       .removeFromConnSet, .closeSocket, .reportError] ∧
    AcceptEvent.invokeHandshake ∈
      acceptWorker (some (.rejected { isDuplicate := true })) true false := by
  decide

/-- Claim C2 — panic containment in `newMConnConnection`: whenever the
handshake function body raises a panic (at any step, including the
multiplexer construction), the deferred recover converts it into a returned
`ErrRejected` flagged `isAuthFailure`; since `newMConnConnection` is a total
function into `HandshakeResult`, the panic never propagates to the accept
loop or `Dial`. -/
theorem newMConnConnection_panic_contained (tID eID : String)
    (descs : List Nat) (env : HandshakeEnv) (m : String)
    (h : newMConnConnectionBody tID descs eID env = .panicked m) :
    newMConnConnection tID descs eID env =
      .rejectedErr { isAuthFailure := true, msg := "recovered from panic: " ++ m } := by
  simp [newMConnConnection, h]

/-- An environment whose only abnormal step is a panic raised inside
`tmconn.NewMConnectionWithConfig`. -/
def envPanicInMConnNew : HandshakeEnv :=
  { setDeadlineStart := .ok (), secretConn := .ok "pk1",
    exchange := .ok { nodeID := "peerX" }, validate := .ok (),
    compatible := .ok (), clearDeadline := .ok (),
    mConnNewPanic := some "boom", mConnStart := .ok () }

/-- Witness for `newMConnConnection_panic_contained` at a concrete
environment panicking inside the multiplexer construction. -/
theorem newMConnConnection_panic_contained_witness :
    newMConnConnectionBody "me" [1] "" envPanicInMConnNew = .panicked "boom" ∧
    newMConnConnection "me" [1] "" envPanicInMConnNew =
      .rejectedErr { isAuthFailure := true,
                     msg := "recovered from panic: " ++ "boom" } :=
  ⟨by decide,
   newMConnConnection_panic_contained "me" "" [1] envPanicInMConnNew "boom" (by decide)⟩

/-- Claim C4 — `Dial`, evaluated after a successful TCP connect at an input
where the filter step succeeds (so the socket's IPs were registered) and
the handshake fails: the code removes the socket from the `ConnectionSet`
but returns the error without ever closing the socket (the accept-loop
worker closes it in the same situation; `Dial` leaks it).  The claim that
the caller also closes the socket is therefore violated on the `Dial`
path. -/
theorem dial_handshake_failure_socket_not_closed :
    dialWorker none true =
      [DialEvent.invokeFilter, .invokeHandshake, .removeFromConnSet, .returnFailure] ∧
    DialEvent.removeFromConnSet ∈ dialWorker none true ∧
    DialEvent.closeSocket ∉ dialWorker none true ∧
    AcceptEvent.closeSocket ∈ acceptWorker none true false := by
  decide

/-- Claim C5 — a `Read` whose pending chunk is strictly larger than the
caller's buffer fails with `io.ErrShortBuffer`, reports 0 bytes read, and
leaves the target buffer unchanged: no partial read happens. -/
theorem mConnStream_Read_short_buffer (bz target : List Nat) (closed : Bool)
    (h : target.length < bz.length) :
    mConnStream.Read (some bz) closed target =
      .done 0 (some .shortBuffer) target := by
  simp [mConnStream.Read, h]

/-- Witness for `mConnStream_Read_short_buffer`: a two-byte chunk against a
one-byte buffer. -/
theorem mConnStream_Read_short_buffer_witness :
    mConnStream.Read (some [1, 2]) false [0] =
      .done 0 (some .shortBuffer) [0] :=
  mConnStream_Read_short_buffer [1, 2] [0] false (by decide)

/-- Claim C7 — `receive` with a non-empty chunk and `eof` set hands the
reader the payload chunk first and then the zero-length end-of-message
marker, in that order; and a `Read` of the zero-length marker completes
with 0 bytes and no error, leaving the buffer unchanged. -/
theorem mConnStream_receive_eof_marker (bz target : List Nat) (closed : Bool)
    (h : 0 < bz.length) :
    mConnStream.receive false bz true = ([bz, []], none) ∧
    mConnStream.Read (some []) closed target = .done 0 none target := by
  constructor
  · simp [mConnStream.receive, h]
  · simp [mConnStream.Read, copyBytes]

/-- Witness for `mConnStream_receive_eof_marker` with the payload `[7]`. -/
theorem mConnStream_receive_eof_marker_witness :
    mConnStream.receive false [7] true = ([[7], []], none) ∧
    mConnStream.Read (some []) false [9] = .done 0 none [9] :=
  mConnStream_receive_eof_marker [7] [9] false (by decide)

/-- Claim C8 — `Close` is idempotent (a second `Close` changes nothing and,
like the first, reports no error); after close a `Read` with no pending
sender returns `io.EOF` instead of blocking; and any `Write` on the closed
stream fails. -/
theorem mConnStream_Close_idempotent_read_eof_write_fails
    (c sendOK : Bool) (bz target : List Nat) :
    mConnStream.Close (mConnStream.Close c).1 = mConnStream.Close c ∧
    (mConnStream.Close c).2 = none ∧
    mConnStream.Read none (mConnStream.Close c).1 target =
      .done 0 (some .endOfStream) target ∧
    ((mConnStream.Write (mConnStream.Close c).1 sendOK bz).2).isSome = true := by
  refine ⟨rfl, rfl, ?_, ?_⟩ <;>
    simp [mConnStream.Close, mConnStream.Read, mConnStream.Write]

/-- Claim C3 — after node-info validation succeeds, the identity checks of
`newMConnConnection` run in order with their classifications: (a) a
non-empty `expectPeerID` differing from the identity derived from the
secure channel's public key yields an authentication-failure rejection;
(b) otherwise a declared peer identity equal to this node's own yields a
self rejection; (c) otherwise an incompatibility yields an incompatible
rejection. -/
theorem newMConnConnection_identity_checks (tID eID pk : String)
    (ni : NodeInfo) (descs : List Nat) (env : HandshakeEnv)
    (h1 : env.setDeadlineStart = .ok ()) (h2 : env.secretConn = .ok pk)
    (h3 : env.exchange = .ok ni) (h4 : env.validate = .ok ()) :
    (eID ≠ "" → eID ≠ PubKeyToID pk →
      newMConnConnection tID descs eID env =
        .rejectedErr (authMismatchRej (PubKeyToID pk))) ∧
    ((eID = "" ∨ eID = PubKeyToID pk) → tID = ni.nodeID →
      newMConnConnection tID descs eID env = .rejectedErr (selfRej ni.nodeID)) ∧
    (∀ m, (eID = "" ∨ eID = PubKeyToID pk) → tID ≠ ni.nodeID →
      env.compatible = .fail m →
      newMConnConnection tID descs eID env =
        .rejectedErr (incompatRej ni.nodeID m)) := by
  refine ⟨?_, ?_, ?_⟩
  · intro hne hmis
    simp [newMConnConnection, newMConnConnectionBody, h1, h2, h3, h4, hne, hmis]
  · intro hor hself
    have hguard : ¬(eID ≠ "" ∧ eID ≠ PubKeyToID pk) := by
      rcases hor with h | h <;> simp [h]
    simp [newMConnConnection, newMConnConnectionBody, h1, h2, h3, h4, hguard, hself]
  · intro m hor hne hcomp
    have hguard : ¬(eID ≠ "" ∧ eID ≠ PubKeyToID pk) := by
      rcases hor with h | h <;> simp [h]
    simp [newMConnConnection, newMConnConnectionBody, h1, h2, h3, h4, hguard,
      hne, hcomp]

/-- An environment where the handshake steps up to validation succeed and
the compatibility check fails. -/
def envIdentityChecks : HandshakeEnv :=
  { setDeadlineStart := .ok (), secretConn := .ok "pk1",
    exchange := .ok { nodeID := "peerX" }, validate := .ok (),
    compatible := .fail "wrong network", clearDeadline := .ok (),
    mConnNewPanic := none, mConnStart := .ok () }

/-- Witness for `newMConnConnection_identity_checks`: in one fixed
environment, a mismatched dialed identity is rejected as an authentication
failure, a matching own identity as self, and a failing compatibility check
as incompatible. -/
theorem newMConnConnection_identity_checks_witness :
    newMConnConnection "me" [1] "other" envIdentityChecks =
      .rejectedErr (authMismatchRej "pk1") ∧
    newMConnConnection "peerX" [1] "" envIdentityChecks =
      .rejectedErr (selfRej "peerX") ∧
    newMConnConnection "me" [1] "" envIdentityChecks =
      .rejectedErr (incompatRej "peerX" "wrong network") :=
  ⟨(newMConnConnection_identity_checks "me" "other" "pk1" { nodeID := "peerX" }
      [1] envIdentityChecks rfl rfl rfl rfl).1 (by decide) (by decide),
   (newMConnConnection_identity_checks "peerX" "" "pk1" { nodeID := "peerX" }
      [1] envIdentityChecks rfl rfl rfl rfl).2.1 (Or.inl rfl) rfl,
   (newMConnConnection_identity_checks "me" "" "pk1" { nodeID := "peerX" }
      [1] envIdentityChecks rfl rfl rfl rfl).2.2 "wrong network" (Or.inl rfl)
      (by decide) rfl⟩

/-- If the filter channel delivers fewer results than there are filters and
every delivered result is a success, the receive loop ends in
`filterTimeout`. -/
lemma filterLoop_missing_results (ft : Nat) :
    ∀ (ds : List (Nat × Option String)) (n now : Nat),
      (∀ d ∈ ds, d.2 = none) → ds.length < n →
      filterLoop ft n now ds = .filterTimeout := by
  intro ds
  induction ds with
  | nil =>
    intro n now _ hlt
    match n, hlt with
    | m + 1, _ => rfl
  | cons hd tl ih =>
    intro n now hall hlt
    match n, hlt with
    | m + 1, hlt =>
      obtain ⟨t, r⟩ := hd
      have hr : r = none := hall (t, r) (List.mem_cons_self _ _)
      subst hr
      by_cases ht : t < now + ft
      · simp only [filterLoop, if_pos ht]
        exact ih m (max now t)
          (fun d hd => hall d (List.mem_cons_of_mem _ hd))
          (by simp only [List.length_cons] at hlt; omega)
      · simp only [filterLoop, if_neg ht]

/-- If every filter's result is delivered, each within a fresh
`filterTimeout` of the previous receive, and all results are successes,
the receive loop ends in `success`. -/
lemma filterLoop_all_within (ft : Nat) :
    ∀ (ds : List (Nat × Option String)) (n now : Nat),
      (∀ d ∈ ds, d.2 = none) → withinWaits ft now ds = true →
      ds.length = n → filterLoop ft n now ds = .success := by
  intro ds
  induction ds with
  | nil =>
    intro n now _ _ hlen
    subst hlen
    rfl
  | cons hd tl ih =>
    intro n now hall hw hlen
    obtain ⟨t, r⟩ := hd
    have hr : r = none := hall (t, r) (List.mem_cons_self _ _)
    subst hr
    simp only [withinWaits, Bool.and_eq_true, decide_eq_true_eq] at hw
    subst hlen
    simp only [List.length_cons, filterLoop, if_pos hw.1]
    exact ih tl.length (max now t)
      (fun d hd => hall d (List.mem_cons_of_mem _ hd)) hw.2 rfl

/-- Claim C6 (amended) — the filter step waits for the filter results one
at a time, arming a fresh `filterTimeout` timer for each wait rather than
one timeout shared by the whole step: if some filter never reports (fewer
channel deliveries than filters), the step fails with `filterTimeout` even
when every delivered result is a success; and if every filter reports, each
within `filterTimeout` of the previous receive, the step succeeds even when
the total filtering time exceeds `filterTimeout`. -/
theorem filterTCPConn_per_wait_timeout (ft n : Nat)
    (ds : List (Nat × Option String)) (hall : ∀ d ∈ ds, d.2 = none) :
    (ds.length < n →
      mConnTransport.filterTCPConn ft false true n ds = .filterTimeout) ∧
    (ds.length = n → withinWaits ft 0 ds = true →
      mConnTransport.filterTCPConn ft false true n ds = .success) := by
  constructor
  · intro hlt
    simpa [mConnTransport.filterTCPConn] using
      filterLoop_missing_results ft ds n 0 hall hlt
  · intro hlen hw
    simpa [mConnTransport.filterTCPConn] using
      filterLoop_all_within ft ds n 0 hall hw hlen

/-- Witness for `filterTCPConn_per_wait_timeout`: with timeout 5 and two
filters, a single delivery at time 1 ends in `filterTimeout`; deliveries at
times 4 and 8 (per-wait gaps under 5, total time over 5) end in
`success`. -/
theorem filterTCPConn_per_wait_timeout_witness :
    mConnTransport.filterTCPConn 5 false true 2 [(1, none)] = .filterTimeout ∧
    mConnTransport.filterTCPConn 5 false true 2 [(4, none), (8, none)] = .success :=
  ⟨(filterTCPConn_per_wait_timeout 5 2 [(1, none)] (by decide)).1 (by decide),
   (filterTCPConn_per_wait_timeout 5 2 [(4, none), (8, none)] (by decide)).2
     (by decide) (by decide)⟩

/-- Claim C6 (counterexample to the claim as stated) — with
`filterTimeout = 5` and two filters whose results arrive at times 4 and 8,
the shared-timeout reading of the claim predicts `filterTimeout` (the
second filter has not reported when the single shared timeout elapses at
time 5, `5 < 8`), but the code returns `success`, because each wait of the
receive loop evaluates `time.After(m.filterTimeout)` afresh. -/
theorem filterTCPConn_shared_timeout_refuted :
    mConnTransport.filterTCPConn 5 false true 2 [(4, none), (8, none)] = .success ∧
    5 < 8 := by
  decide

/-- Claim C10 — `Connection.Stream` never returns an error, truncates its
16-bit argument to the low 8 bits (so ids differing by 256 yield the same
stream), and yields a `nil` stream with a `nil` error when the low byte
matches no configured channel. -/
theorem mConnConnection_Stream_truncates (streams : List Nat) (id : Nat)
    (h : id < 65536) :
    (mConnConnection.Stream streams id).2 = none ∧
    mConnConnection.Stream streams id =
      mConnConnection.Stream streams ((id + 256) % 65536) ∧
    ((id % 256) ∉ streams → (mConnConnection.Stream streams id).1 = none) := by
  have hmod : (id + 256) % 65536 % 256 = id % 256 := by
    rw [Nat.mod_mod_of_dvd _ (by norm_num), Nat.add_mod_right]
  refine ⟨rfl, ?_, ?_⟩
  · simp [mConnConnection.Stream, hmod]
  · intro hnot
    simp [mConnConnection.Stream, hnot]

/-- Witness for `mConnConnection_Stream_truncates` at id 7 with channels
1 and 2 configured: no error, same stream as id 263, and a `nil` stream
since channel 7 is not configured. -/
theorem mConnConnection_Stream_truncates_witness :
    (mConnConnection.Stream [1, 2] 7).2 = none ∧
    mConnConnection.Stream [1, 2] 7 = mConnConnection.Stream [1, 2] ((7 + 256) % 65536) ∧
    (mConnConnection.Stream [1, 2] 7).1 = none :=
  ⟨(mConnConnection_Stream_truncates [1, 2] 7 (by decide)).1,
   (mConnConnection_Stream_truncates [1, 2] 7 (by decide)).2.1,
   (mConnConnection_Stream_truncates [1, 2] 7 (by decide)).2.2 (by decide)⟩

/-- An endpoint already in normalized form (protocol `mconn`, non-empty IP,
empty path, non-zero port) is accepted by `normalizeEndpoint` unchanged. -/
lemma normalizeEndpoint_of_normalized (e : Endpoint)
    (hp : e.protocol = MConnProtocolStr) (hip : e.ip.length ≠ 0)
    (hpath : e.path = "") (hport : e.port ≠ 0) :
    mConnTransport.normalizeEndpoint e = .ok e := by
  have hmc : MConnProtocolStr ≠ "" := by decide
  have hne : e.protocol ≠ "" := by rw [hp]; exact hmc
  have hip2 : e.ip ≠ [] := by
    intro hnil
    exact hip (by rw [hnil]; rfl)
  simp [mConnTransport.normalizeEndpoint, Endpoint.Validate, hne, hp, hmc,
    hip, hip2, hpath, hport]

/-- Claim C9 — `normalizeEndpoint` is idempotent on the endpoints it
accepts: normalizing an already-normalized endpoint succeeds and leaves it
unchanged. -/
theorem normalizeEndpoint_idempotent (e e' : Endpoint)
    (h : mConnTransport.normalizeEndpoint e = .ok e') :
    mConnTransport.normalizeEndpoint e' = .ok e' := by
  simp only [mConnTransport.normalizeEndpoint, Endpoint.Validate] at h
  split_ifs at h with h1 h2 h3 h4 h5 h6 h7 h8 <;>
    injection h with h <;>
    subst h <;>
    (apply normalizeEndpoint_of_normalized <;> simp_all)

/-- An endpoint before normalization: empty protocol and zero port. -/
def endpointRaw : Endpoint :=
  { protocol := "", peerID := "n1", ip := [127, 0, 0, 1], port := 0, path := "" }

/-- `endpointRaw` after normalization: protocol `mconn`, port 26657. -/
def endpointNorm : Endpoint :=
  { protocol := MConnProtocolStr, peerID := "n1", ip := [127, 0, 0, 1],
    port := 26657, path := "" }

/-- Witness for `normalizeEndpoint_idempotent`: normalizing `endpointRaw`
yields `endpointNorm`, and normalizing `endpointNorm` again leaves it
unchanged. -/
theorem normalizeEndpoint_idempotent_witness :
    mConnTransport.normalizeEndpoint endpointRaw = .ok endpointNorm ∧
    mConnTransport.normalizeEndpoint endpointNorm = .ok endpointNorm :=
  ⟨rfl, normalizeEndpoint_idempotent endpointRaw endpointNorm rfl⟩
